import Mathlib

/-!
Shallow embedding of `sleekcms/sleekcms-react` (src/src/index.tsx).

The source file holds two variants of the React binding layer:
* variant 1 (`@sleekcms/react`): `useClient`, `useFetch`, a `useState`-based
  `SleekCMSProvider`, and typed wrappers (`useContent`, `usePage`, ...);
* variant 2 (`sleekcms-react`): `useAsyncQuery`, `useSleekClientFromContext`,
  a `useMemo`-based `SleekCMSProvider` with an optional sync-prefetch mode,
  and typed wrappers (`useCmsContent`, `useCmsPages`, ...).

JavaScript objects are modelled with an explicit `ref`/`ctorId` field standing
for object identity (`Object.is`); promises settle to `Except E T`; React
`useMemo` cells are modelled as explicit memo state threaded through renders;
a `throw` during render is an `Except.error`.
-/

namespace SleekReact

/-- `ClientOptions` of `@sleekcms/client` as used by variant 1: `siteToken`,
`env`, `cdn`, `lang`, a cache adapter and `cacheMinutes` (README part_002).
`ref` models the identity of the options object literal: two distinct literals
have distinct `ref`s even when every other field agrees, which is what
`Object.is` (the `useMemo` dependency comparison) sees. `cache` holds the
identity of the cache-adapter object, `none` when absent. -/
structure ClientOptions where
  ref : Nat
  siteToken : String
  env : Option String := none
  cdn : Bool := false
  lang : Option String := none
  cache : Option Nat := none
  cacheMinutes : Option Nat := none
deriving DecidableEq

/-- A client built by `createAsyncClient`: `ctorId` distinguishes separate
constructor calls (two calls yield two distinct handles). -/
structure AsyncClient where
  ctorId : Nat
  options : ClientOptions
deriving DecidableEq

/-- `createAsyncClient(options)` (external constructor); `ctorId` is the
running count of constructions, making each constructed handle distinct. -/
def createAsyncClient (ctorId : Nat) (o : ClientOptions) : AsyncClient :=
  ⟨ctorId, o⟩

/-- `Object.is` on the single `useMemo` dependency `[options]` of `useClient`:
`undefined` equals `undefined`, and two option objects are the same exactly
when they are the same object (same `ref`). -/
def optionsIs (a b : Option ClientOptions) : Bool :=
  match a, b with
  | none, none => true
  | some x, some y => x.ref == y.ref
  | _, _ => false

/-- The `useMemo` cell of `useClient` across renders: `cached` is the last
dependency value together with the memoised computation result, `ctorCount`
counts `createAsyncClient` calls performed so far (and serves as the next
fresh `ctorId`). -/
structure UseClientMemo where
  cached : Option (Option ClientOptions × Option AsyncClient) := none
  ctorCount : Nat := 0
deriving DecidableEq

/-- The memo computation `() => options ? createAsyncClient(options) : null`
(src/src/index.tsx:22-25), run when the dependency changed. -/
def useMemoCompute (st : UseClientMemo) (options : Option ClientOptions) :
    UseClientMemo × Option AsyncClient :=
  match options with
  | some o =>
      let c := createAsyncClient st.ctorCount o
      (⟨some (options, some c), st.ctorCount + 1⟩, some c)
  | none => (⟨some (options, none), st.ctorCount⟩, none)

/-- The `standaloneClient` memo of `useClient`: reuse the cached value when
the `[options]` dependency is unchanged under `Object.is`, recompute
otherwise. -/
def useStandaloneClient (st : UseClientMemo) (options : Option ClientOptions) :
    UseClientMemo × Option AsyncClient :=
  match st.cached with
  | some (dep, v) =>
      if optionsIs dep options then (st, v) else useMemoCompute st options
  | none => useMemoCompute st options

/-- `const client = standaloneClient ?? contextClient; if (!client) throw ...`
(src/src/index.tsx:27-28). -/
def resolveClient (standaloneClient contextClient : Option AsyncClient) :
    Except String AsyncClient :=
  match standaloneClient with
  | some c => Except.ok c
  | none =>
      match contextClient with
      | some c => Except.ok c
      | none =>
          Except.error "Provide client options or wrap your app with <SleekCMSProvider>"

/-- One render of `useClient(options?)` (src/src/index.tsx:20-30): the
`standaloneClient` memo, then `standaloneClient ?? contextClient`, throwing
when both are absent. -/
def useClient (st : UseClientMemo) (contextClient : Option AsyncClient)
    (options : Option ClientOptions) : UseClientMemo × Except String AsyncClient :=
  let p := useStandaloneClient st options
  (p.1, resolveClient p.2 contextClient)

/-- Local state of a `useFetch` instance: `data`, `error`, `loading`
(src/src/index.tsx:34-36). `none` is JavaScript `undefined`. -/
structure FetchState (T E : Type) where
  data : Option T := none
  error : Option E := none
  loading : Bool := false
deriving DecidableEq

/-- The initial `useFetch` state (all three `useState` initial values). -/
def fetchInit {T E : Type} : FetchState T E := {}

/-- Synchronous prefix of `useFetch`'s `refetch` up to the `await`
(src/src/index.tsx:39): `setLoading(true)`. -/
def ufStart {T E : Type} (s : FetchState T E) : FetchState T E :=
  { s with loading := true }

/-- Continuation of `useFetch`'s `refetch` once the awaited fetcher settles
(src/src/index.tsx:40-46): on resolution `setData`, on rejection `setError`,
in both cases `finally setLoading(false)`. -/
def ufComplete {T E : Type} (s : FetchState T E) (outcome : Except E T) :
    FetchState T E :=
  match outcome with
  | Except.ok v => { s with data := some v, loading := false }
  | Except.error e => { s with error := some e, loading := false }

/-- A whole uninterrupted `useFetch` refetch: start, then completion with the
fetcher's outcome. -/
def ufRefetch {T E : Type} (s : FetchState T E) (outcome : Except E T) :
    FetchState T E :=
  ufComplete (ufStart s) outcome

/-- The promise returned by `useFetch`'s `refetch`, as (resulting state,
exception propagating out of the async function). The `catch` block stores
the rejection in state and returns normally, so the second component records
`none` on that path (src/src/index.tsx:38-47). -/
def ufRefetchPromise {T E : Type} (s : FetchState T E) (outcome : Except E T) :
    FetchState T E × Option E :=
  let s1 := { s with loading := true }
  let step : FetchState T E × Option E :=
    match outcome with
    | Except.ok v => ({ s1 with data := some v }, none)
    | Except.error e => ({ s1 with error := some e }, none)
  ({ step.1 with loading := false }, step.2)

/-- Mounting a `useFetch` hook: the render calls `useClient` first; if that
throws, the error propagates synchronously and the automatic-refetch effect
never runs. Returns the memo state, the rendered result (or the thrown
error) and how many times the fetcher — hence the client operation — was
invoked. `outcome` is what the fetcher would settle to if invoked. -/
def mountUseFetch {T E : Type} (contextClient : Option AsyncClient)
    (options : Option ClientOptions) (outcome : Except E T) :
    UseClientMemo × Except String (FetchState T E) × Nat :=
  let (st1, clientResult) := useClient {} contextClient options
  match clientResult with
  | Except.error msg => (st1, Except.error msg, 0)
  | Except.ok _ => (st1, Except.ok (ufRefetch fetchInit outcome), 1)

/-- Variant 2's `Status` type (src/src/index.tsx:107). -/
inductive Status where
  | idle
  | loading
  | success
  | error
deriving DecidableEq

/-- Local state of a `useAsyncQuery` instance: `data`, `error`, `status`
(src/src/index.tsx:189-191). -/
structure QueryState (T E : Type) where
  data : Option T := none
  error : Option E := none
  status : Status := Status.idle
deriving DecidableEq

/-- The initial `useAsyncQuery` state. -/
def queryInit {T E : Type} : QueryState T E := {}

/-- `isLoading` as returned by `useAsyncQuery` (src/src/index.tsx:215). -/
def aqIsLoading {T E : Type} (s : QueryState T E) : Bool :=
  s.status == Status.loading

/-- Synchronous prefix of `useAsyncQuery`'s `refetch` (enabled case) up to the
`await` (src/src/index.tsx:195-196): `setStatus("loading"); setError(undefined)`. -/
def aqStart {T E : Type} (s : QueryState T E) : QueryState T E :=
  { s with status := Status.loading, error := none }

/-- Continuation of `useAsyncQuery`'s `refetch` once the awaited fetcher
settles (src/src/index.tsx:197-204): `setData; setStatus("success")` on
resolution, `setError; setStatus("error")` on rejection. -/
def aqComplete {T E : Type} (s : QueryState T E) (outcome : Except E T) :
    QueryState T E :=
  match outcome with
  | Except.ok v => { s with data := some v, status := Status.success }
  | Except.error e => { s with error := some e, status := Status.error }

/-- A whole uninterrupted `useAsyncQuery` refetch: `if (!enabled) return;`
then start and completion (src/src/index.tsx:193-205). -/
def aqRefetch {T E : Type} (enabled : Bool) (s : QueryState T E)
    (outcome : Except E T) : QueryState T E :=
  if enabled then aqComplete (aqStart s) outcome else s

/-- `useAsyncQuery`'s `refetch` with its observable effects: the resulting
state, whether the fetcher was invoked, and the exception propagating out of
the returned promise (the `catch` block returns normally, so none does).
`outcome` is what the fetcher would settle to if invoked. -/
def aqRefetchTracked {T E : Type} (enabled : Bool) (s : QueryState T E)
    (outcome : Except E T) : QueryState T E × Bool × Option E :=
  if enabled then
    let s1 := aqStart s
    match outcome with
    | Except.ok v => (aqComplete s1 (Except.ok v), true, none)
    | Except.error e => (aqComplete s1 (Except.error e), true, none)
  else (s, false, none)

/-- A variant-2 client handle: built by `createClient` (`async`), resolved by
`createSyncClient` (`sync`), or supplied by the caller (`external`); the
numeric field is the construction identity. -/
inductive SleekClient where
  | async (ctorId : Nat)
  | sync (ctorId : Nat)
  | external (id : Nat)
deriving DecidableEq

/-- `useSleekClientFromContext` (src/src/index.tsx:175-183): throws when no
provider published a client. -/
def useSleekClientFromContext (ctx : Option SleekClient) :
    Except String SleekClient :=
  match ctx with
  | some c => Except.ok c
  | none =>
      Except.error "[useSleekCms] Missing SleekCMSProvider. Wrap your app with <SleekCMSProvider>."

/-- Mounting a variant-2 hook (`useCmsContent` and friends): the render calls
`useSleekClientFromContext` first; if that throws, the error propagates
synchronously and neither the fetcher nor the mount effect runs. With a
client present, the mount effect runs the automatic refetch only when
`enabled`. Returns the rendered result (or thrown error) and the number of
fetcher invocations. -/
def mountCmsHook {T E : Type} (ctx : Option SleekClient) (enabled : Bool)
    (outcome : Except E T) : Except String (QueryState T E) × Nat :=
  match useSleekClientFromContext ctx with
  | Except.error msg => (Except.error msg, 0)
  | Except.ok _ =>
      if enabled then (Except.ok (aqRefetch true queryInit outcome), 1)
      else (Except.ok queryInit, 0)

/-- Props of the variant-2 `SleekCMSProvider` (src/src/index.tsx:117-121):
an optional pre-built client, `siteToken`, `env`, `cache`, `mock`, `sync`. -/
structure ProviderProps where
  client : Option SleekClient := none
  siteToken : Option String := none
  env : Option String := none
  cache : Bool := false
  mock : Bool := false
  sync : Bool := false
deriving DecidableEq

/-- State of the variant-2 provider (src/src/index.tsx:134-135):
`syncClient` and `isInitializing` (initially `sync || false`). -/
structure ProviderState where
  syncClient : Option SleekClient := none
  isInitializing : Bool := false
deriving DecidableEq

/-- The provider state right after mount: `useState(sync || false)`. -/
def providerInitState (p : ProviderProps) : ProviderState :=
  ⟨none, p.sync⟩

/-- The dependency array of the provider's `value` memo
(src/src/index.tsx:162): `[client, sync, syncClient, isInitializing,
siteToken, env, cache, mock]`. -/
structure ValueDeps where
  client : Option SleekClient
  sync : Bool
  syncClient : Option SleekClient
  isInitializing : Bool
  siteToken : Option String
  env : Option String
  cache : Bool
  mock : Bool
deriving DecidableEq

/-- Current value of the provider memo's dependency array. -/
def valueDeps (p : ProviderProps) (st : ProviderState) : ValueDeps :=
  ⟨p.client, p.sync, st.syncClient, st.isInitializing, p.siteToken, p.env,
   p.cache, p.mock⟩

/-- The `value` memo computation (src/src/index.tsx:152-162): the supplied
client, else the resolved sync client, else `null` while sync-initialising,
else throw without `siteToken`, else `createClient(...)`. Returns the value
(`none` = `null`) and the updated `createClient` construction count. -/
def computeValue (p : ProviderProps) (st : ProviderState) (ctorCount : Nat) :
    Except String (Option SleekClient) × Nat :=
  match p.client with
  | some c => (Except.ok (some c), ctorCount)
  | none =>
      if p.sync && st.syncClient.isSome then (Except.ok st.syncClient, ctorCount)
      else if p.sync && st.isInitializing then (Except.ok none, ctorCount)
      else
        match p.siteToken with
        | none =>
            (Except.error "[SleekCMSProvider] Either `client` or `siteToken` must be provided.",
             ctorCount)
        | some _ => (Except.ok (some (SleekClient.async ctorCount)), ctorCount + 1)

deriving instance DecidableEq for Except

/-- The provider's `value` memo cell across renders, plus the running count of
`createClient` constructions. -/
structure ProviderMemo where
  cached : Option (ValueDeps × Except String (Option SleekClient)) := none
  ctorCount : Nat := 0
deriving DecidableEq

/-- What one provider render produces: nothing (`return null`), or the
children wrapped in a context carrying `value` (`none` = `null` context). -/
inductive Rendered where
  | nothing
  | children (ctx : Option SleekClient)
deriving DecidableEq

/-- The `useMemo` holding `value` (src/src/index.tsx:152-162): reuse the
cached computation when the dependency array is unchanged, recompute
otherwise. -/
def memoValue (m : ProviderMemo) (p : ProviderProps) (st : ProviderState) :
    ProviderMemo × Except String (Option SleekClient) :=
  match m.cached with
  | some (d, v) =>
      if d = valueDeps p st then (m, v)
      else
        let (v, c) := computeValue p st m.ctorCount
        (⟨some (valueDeps p st, v), c⟩, v)
  | none =>
      let (v, c) := computeValue p st m.ctorCount
      (⟨some (valueDeps p st, v), c⟩, v)

/-- One render of the variant-2 `SleekCMSProvider` (src/src/index.tsx:125-173):
run the `value` memo, rethrow a thrown memo computation, render `null` while
`sync && isInitializing`, otherwise render the children under the context
value. -/
def renderProviderV2 (m : ProviderMemo) (p : ProviderProps)
    (st : ProviderState) : ProviderMemo × Except String Rendered :=
  match memoValue m p st with
  | (m1, Except.error msg) => (m1, Except.error msg)
  | (m1, Except.ok v) =>
      if p.sync && st.isInitializing then (m1, Except.ok Rendered.nothing)
      else (m1, Except.ok (Rendered.children v))

/-- Resolution of the `createSyncClient` promise started by the provider's
mount effect (src/src/index.tsx:140-144): store the sync client and clear
`isInitializing`. -/
def syncResolve (scId : Nat) : ProviderState :=
  ⟨some (SleekClient.sync scId), false⟩

/-- Rejection of the `createSyncClient` promise (src/src/index.tsx:145-148):
log and clear `isInitializing`, leaving `syncClient` unset. -/
def syncReject (st : ProviderState) : ProviderState :=
  { st with isInitializing := false }

/-- The variant-1 `SleekCMSProvider` (src/src/index.tsx:54-57): the client is
held in `useState(() => createAsyncClient(options))`, so the initialiser runs
exactly once at mount. -/
def providerV1Mount (options : ClientOptions) : AsyncClient :=
  createAsyncClient 0 options

/-- A re-render of the variant-1 provider publishes the state-held client and
performs no construction (second component: constructions this render). -/
def renderProviderV1 (stateClient : AsyncClient) : AsyncClient × Nat :=
  (stateClient, 0)

/-- An event in the life of one fetch-hook instance: the synchronous prefix
of a refetch (identified by `id`), or the settling of that refetch's awaited
fetcher. Between two events the JavaScript thread runs no hook code, so a
trace of these events captures every interleaving of overlapping refetches. -/
inductive FetchEvt (T E : Type) where
  | start (id : Nat)
  | complete (id : Nat) (outcome : Except E T)
deriving DecidableEq

/-- One event applied to a `useFetch` configuration (hook state, ids of the
refetches whose fetcher is still outstanding, ids already used). `none` when
the event is ill-formed: a reused id, or a completion with no matching
outstanding start. -/
def ufTraceStep {T E : Type} (c : FetchState T E × List Nat × List Nat)
    (ev : FetchEvt T E) : Option (FetchState T E × List Nat × List Nat) :=
  match ev with
  | FetchEvt.start i =>
      if i ∈ c.2.2 then none
      else some (ufStart c.1, i :: c.2.1, i :: c.2.2)
  | FetchEvt.complete i o =>
      if i ∈ c.2.1 then some (ufComplete c.1 o, c.2.1.erase i, c.2.2)
      else none

/-- Run a `useFetch` event trace from a configuration, failing on the first
ill-formed event. -/
def ufTraceRun {T E : Type} (c : FetchState T E × List Nat × List Nat) :
    List (FetchEvt T E) → Option (FetchState T E × List Nat × List Nat)
  | [] => some c
  | ev :: rest =>
      match ufTraceStep c ev with
      | some c1 => ufTraceRun c1 rest
      | none => none

/-- Run a well-formed `useFetch` event trace from the freshly mounted hook. -/
def ufRunFromInit {T E : Type} (tr : List (FetchEvt T E)) :
    Option (FetchState T E × List Nat × List Nat) :=
  ufTraceRun (fetchInit, [], []) tr

/-- One event applied to a `useFetch` configuration under the additional
sequential discipline: a refetch may start only when no refetch is
outstanding. -/
def ufSeqStep {T E : Type} (c : FetchState T E × List Nat)
    (ev : FetchEvt T E) : Option (FetchState T E × List Nat) :=
  match ev with
  | FetchEvt.start i => if c.2 = [] then some (ufStart c.1, [i]) else none
  | FetchEvt.complete i o =>
      if c.2 = [i] then some (ufComplete c.1 o, []) else none

/-- Run a sequential `useFetch` event trace. -/
def ufSeqRun {T E : Type} (c : FetchState T E × List Nat) :
    List (FetchEvt T E) → Option (FetchState T E × List Nat)
  | [] => some c
  | ev :: rest =>
      match ufSeqStep c ev with
      | some c1 => ufSeqRun c1 rest
      | none => none

/-- Run a sequential `useFetch` event trace from the freshly mounted hook. -/
def ufSeqRunFromInit {T E : Type} (tr : List (FetchEvt T E)) :
    Option (FetchState T E × List Nat) :=
  ufSeqRun (fetchInit, []) tr

/-- One event applied to a `useAsyncQuery` (enabled) configuration under the
sequential discipline. -/
def aqSeqStep {T E : Type} (c : QueryState T E × List Nat)
    (ev : FetchEvt T E) : Option (QueryState T E × List Nat) :=
  match ev with
  | FetchEvt.start i => if c.2 = [] then some (aqStart c.1, [i]) else none
  | FetchEvt.complete i o =>
      if c.2 = [i] then some (aqComplete c.1 o, []) else none

/-- Run a sequential `useAsyncQuery` event trace. -/
def aqSeqRun {T E : Type} (c : QueryState T E × List Nat) :
    List (FetchEvt T E) → Option (QueryState T E × List Nat)
  | [] => some c
  | ev :: rest =>
      match aqSeqStep c ev with
      | some c1 => aqSeqRun c1 rest
      | none => none

/-- Run a sequential `useAsyncQuery` event trace from the freshly mounted
hook. -/
def aqSeqRunFromInit {T E : Type} (tr : List (FetchEvt T E)) :
    Option (QueryState T E × List Nat) :=
  aqSeqRun (queryInit, []) tr

/-! Helper lemmas. -/

theorem optionsIs_refl (a : Option ClientOptions) : optionsIs a a = true := by
  cases a <;> simp [optionsIs]

/-- Re-running the `standaloneClient` memo with the unchanged dependency
reuses the cached pair: no state change, no construction. -/
theorem useStandaloneClient_stable (st : UseClientMemo)
    (opts : Option ClientOptions) :
    useStandaloneClient (useStandaloneClient st opts).1 opts =
      useStandaloneClient st opts := by
  rcases st with ⟨cached, n⟩
  cases cached with
  | none =>
      cases opts <;>
        simp [useStandaloneClient, useMemoCompute, optionsIs_refl]
  | some dv =>
      rcases dv with ⟨dep, v⟩
      by_cases h : optionsIs dep opts = true
      · simp [useStandaloneClient, h]
      · rw [Bool.not_eq_true] at h
        cases opts <;>
          simp [useStandaloneClient, useMemoCompute, h, optionsIs_refl]

/-- After the memo ran with an options object, the cached dependency is an
options object with the same reference. -/
theorem useStandaloneClient_cached_ref (st : UseClientMemo) (o : ClientOptions) :
    ∃ x v, (useStandaloneClient st (some o)).1.cached = some (some x, v) ∧
      x.ref = o.ref := by
  rcases st with ⟨cached, n⟩
  cases cached with
  | none =>
      exact ⟨o, some (createAsyncClient n o), rfl, rfl⟩
  | some dv =>
      rcases dv with ⟨dep, v⟩
      by_cases h : optionsIs dep (some o) = true
      · cases dep with
        | none => simp [optionsIs] at h
        | some x =>
            refine ⟨x, v, ?_, ?_⟩
            · simp [useStandaloneClient, h]
            · simpa [optionsIs] using h
      · rw [Bool.not_eq_true] at h
        refine ⟨o, some (createAsyncClient n o), ?_, rfl⟩
        simp [useStandaloneClient, useMemoCompute, h]

/-- A memo whose cached dependency does not reference-match the supplied
options object recomputes, constructing exactly one more client. -/
theorem useStandaloneClient_miss_ctor (st : UseClientMemo) (o : ClientOptions)
    (h : ∀ x v, st.cached = some (some x, v) → x.ref ≠ o.ref) :
    (useStandaloneClient st (some o)).1.ctorCount = st.ctorCount + 1 := by
  rcases st with ⟨cached, n⟩
  cases cached with
  | none => rfl
  | some dv =>
      rcases dv with ⟨dep, v⟩
      have hne : optionsIs dep (some o) = false := by
        cases dep with
        | none => rfl
        | some x =>
            have := h x v rfl
            simp [optionsIs, this]
      simp [useStandaloneClient, useMemoCompute, hne]

/-- The memo state `useClient` leaves behind is the one its `standaloneClient`
memo leaves behind. -/
theorem useClient_fst (st : UseClientMemo) (ctx : Option AsyncClient)
    (opts : Option ClientOptions) :
    (useClient st ctx opts).1 = (useStandaloneClient st opts).1 := rfl

/-- A second `useClient` render with the unchanged options object changes
nothing and returns the same client. -/
theorem useClient_stable (st : UseClientMemo) (ctx : Option AsyncClient)
    (opts : Option ClientOptions) :
    useClient (useClient st ctx opts).1 ctx opts = useClient st ctx opts := by
  have h := useStandaloneClient_stable st opts
  show (let p := useStandaloneClient (useStandaloneClient st opts).1 opts;
        (p.1, resolveClient p.2 ctx)) =
      (let p := useStandaloneClient st opts; (p.1, resolveClient p.2 ctx))
  rw [h]

/-- Any configuration a sequential `useFetch` step produces satisfies the
loading invariant. -/
theorem ufSeqStep_inv {T E : Type} (c c' : FetchState T E × List Nat)
    (ev : FetchEvt T E) (h : ufSeqStep c ev = some c') :
    (c'.1.loading = true ↔ c'.2 ≠ []) := by
  cases ev with
  | start i =>
      by_cases h2 : c.2 = []
      · simp [ufSeqStep, h2] at h
        subst h
        simp [ufStart]
      · simp [ufSeqStep, h2] at h
  | complete i o =>
      by_cases h2 : c.2 = [i]
      · simp [ufSeqStep, h2] at h
        subst h
        cases o <;> simp [ufComplete]
      · simp [ufSeqStep, h2] at h

/-- The loading invariant holds after any successful sequential `useFetch`
run from a configuration satisfying it. -/
theorem ufSeqRun_inv {T E : Type} (tr : List (FetchEvt T E)) :
    ∀ c c' : FetchState T E × List Nat,
      (c.1.loading = true ↔ c.2 ≠ []) → ufSeqRun c tr = some c' →
      (c'.1.loading = true ↔ c'.2 ≠ []) := by
  induction tr with
  | nil =>
      intro c c' hc h
      simp [ufSeqRun] at h
      subst h
      exact hc
  | cons ev rest ih =>
      intro c c' hc h
      simp only [ufSeqRun] at h
      cases heq : ufSeqStep c ev with
      | none => rw [heq] at h; exact absurd h (by simp)
      | some c1 =>
          rw [heq] at h
          exact ih c1 c' (ufSeqStep_inv c c1 ev heq) h

/-- Any configuration a sequential `useAsyncQuery` step produces satisfies
the loading invariant. -/
theorem aqSeqStep_inv {T E : Type} (c c' : QueryState T E × List Nat)
    (ev : FetchEvt T E) (h : aqSeqStep c ev = some c') :
    (aqIsLoading c'.1 = true ↔ c'.2 ≠ []) := by
  cases ev with
  | start i =>
      by_cases h2 : c.2 = []
      · simp [aqSeqStep, h2] at h
        subst h
        simp [aqStart, aqIsLoading]
      · simp [aqSeqStep, h2] at h
  | complete i o =>
      by_cases h2 : c.2 = [i]
      · simp [aqSeqStep, h2] at h
        subst h
        cases o <;> simp [aqComplete, aqIsLoading]
      · simp [aqSeqStep, h2] at h

/-- The loading invariant holds after any successful sequential
`useAsyncQuery` run from a configuration satisfying it. -/
theorem aqSeqRun_inv {T E : Type} (tr : List (FetchEvt T E)) :
    ∀ c c' : QueryState T E × List Nat,
      (aqIsLoading c.1 = true ↔ c.2 ≠ []) → aqSeqRun c tr = some c' →
      (aqIsLoading c'.1 = true ↔ c'.2 ≠ []) := by
  induction tr with
  | nil =>
      intro c c' hc h
      simp [aqSeqRun] at h
      subst h
      exact hc
  | cons ev rest ih =>
      intro c c' hc h
      simp only [aqSeqRun] at h
      cases heq : aqSeqStep c ev with
      | none => rw [heq] at h; exact absurd h (by simp)
      | some c1 =>
          rw [heq] at h
          exact ih c1 c' (aqSeqStep_inv c c1 ev heq) h

/-- A `value` memo whose cached dependency array equals the current one
reuses the cached computation: no state change, no construction. -/
theorem memoValue_hit (m : ProviderMemo) (p : ProviderProps)
    (st : ProviderState) (v : Except String (Option SleekClient))
    (h : m.cached = some (valueDeps p st, v)) : memoValue m p st = (m, v) := by
  unfold memoValue
  rw [h]
  simp

/-- The memo state a provider render leaves behind is the one its `value`
memo leaves behind. -/
theorem renderProviderV2_fst (m : ProviderMemo) (p : ProviderProps)
    (st : ProviderState) :
    (renderProviderV2 m p st).1 = (memoValue m p st).1 := by
  rcases hq : memoValue m p st with ⟨m1, msg | v⟩
  · simp [renderProviderV2, hq]
  · simp only [renderProviderV2, hq]
    split <;> rfl

/-! Claim theorems. -/

/-- C1 counterexample: the claim "after a successful refetch `error` is
absent (cleared even if a previous refetch had set it)" fails on `useFetch`:
starting from the mounted hook, a failed refetch (rejection `"boom"`) followed
by a successful refetch (resolution `5`) leaves `data = some 5` but still
`error = some "boom"` — the success path of `useFetch` never clears `error`
(src/src/index.tsx:38-47 has no `setError(undefined)`). -/
theorem C1_counterexample :
    (ufRefetch (ufRefetch (fetchInit : FetchState Nat String)
        (Except.error "boom")) (Except.ok 5)).data = some 5 ∧
    (ufRefetch (ufRefetch (fetchInit : FetchState Nat String)
        (Except.error "boom")) (Except.ok 5)).error = some "boom" ∧
    some "boom" ≠ (none : Option String) := by
  refine ⟨rfl, rfl, by simp⟩

/-- C1 amended: after a refetch whose client operation resolves, `data`
equals the resolved value in both hooks; `error` is absent afterwards in
`useAsyncQuery` (cleared at refetch start), while in `useFetch` `error`
keeps whatever value it had before the refetch (absent only if never set). -/
theorem C1_amended {T E : Type} (s : FetchState T E) (q : QueryState T E)
    (v : T) :
    (ufRefetch s (Except.ok v)).data = some v ∧
    (ufRefetch s (Except.ok v)).error = s.error ∧
    (aqRefetch true q (Except.ok v)).data = some v ∧
    (aqRefetch true q (Except.ok v)).error = none := by
  refine ⟨rfl, rfl, ?_, ?_⟩ <;> simp [aqRefetch, aqStart, aqComplete]

/-- C2 counterexample: two successive `useClient` invocations whose option
objects agree on every configuration field except the cache-adapter reference
(`o1.cache = none`, `o2.cache = some 7`; distinct objects, hence distinct
`ref`s) do NOT reuse the previously constructed client: the `useMemo` keyed
on the object reference `[options]` recomputes, so two clients are
constructed and the returned handles differ. There is no derived options key
in the code (src/src/index.tsx:22-25). -/
theorem C2_counterexample :
    let o1 : ClientOptions := ⟨0, "tok", none, false, none, none, none⟩
    let o2 : ClientOptions := ⟨1, "tok", none, false, none, some 7, none⟩
    let r1 := useClient {} none (some o1)
    let r2 := useClient r1.1 none (some o2)
    o1.siteToken = o2.siteToken ∧ o1.env = o2.env ∧ o1.cdn = o2.cdn ∧
    o1.lang = o2.lang ∧ o1.cacheMinutes = o2.cacheMinutes ∧
    o1.cache ≠ o2.cache ∧
    r2.1.ctorCount = 2 ∧ r1.2 ≠ r2.2 := by decide

/-- C2 amended: the one-off client is memoised by the identity of the options
object (`useMemo` with dependency `[options]`), not by a derived key: an
invocation passing the unchanged options object (or none, both times) reuses
the previous result without any construction or state change, while passing
an options object with a different reference — as any change of the cache
adapter entails, since it yields a new object — constructs exactly one new
client. -/
theorem C2_amended (st : UseClientMemo) (ctx : Option AsyncClient)
    (opts : Option ClientOptions) (o o' : ClientOptions) :
    useClient (useClient st ctx opts).1 ctx opts = useClient st ctx opts ∧
    (o.ref ≠ o'.ref →
      (useClient (useClient st ctx (some o)).1 ctx (some o')).1.ctorCount =
        (useClient st ctx (some o)).1.ctorCount + 1) := by
  refine ⟨useClient_stable st ctx opts, ?_⟩
  intro href
  rw [useClient_fst, useClient_fst]
  obtain ⟨x, v, hc, hx⟩ := useStandaloneClient_cached_ref st o
  apply useStandaloneClient_miss_ctor _ o'
  intro x' v' h'
  rw [hc] at h'
  cases h'
  rw [hx]
  exact href

/-- C3: for both hooks, after a refetch whose client operation rejects,
`error` holds the failure value and `data` is exactly what it was before the
refetch — in particular still absent when no refetch ever succeeded
(starting from the mounted state). -/
theorem C3_failure_sets_error_preserves_data {T E : Type}
    (s : FetchState T E) (q : QueryState T E) (e : E) :
    (ufRefetch s (Except.error e)).error = some e ∧
    (ufRefetch s (Except.error e)).data = s.data ∧
    (aqRefetch true q (Except.error e)).error = some e ∧
    (aqRefetch true q (Except.error e)).data = q.data ∧
    (ufRefetch (fetchInit : FetchState T E) (Except.error e)).data = none ∧
    (aqRefetch true (queryInit : QueryState T E) (Except.error e)).data
      = none := by
  refine ⟨rfl, rfl, ?_, ?_, rfl, ?_⟩ <;>
    simp [aqRefetch, aqStart, aqComplete, queryInit]

/-- C4 counterexample: the claim "starting a refetch does not eagerly clear
either `data` or `error`" fails on `useAsyncQuery`: from the state
`⟨data = some 1, error = some "boom", status = error⟩`, the synchronous
prefix of `refetch` (before the fetcher is awaited) already sets
`error = undefined` (src/src/index.tsx:196) — the request is outstanding
(`status = loading`) and the pre-refetch error value is gone. -/
theorem C4_counterexample :
    (aqStart (⟨some 1, some "boom", Status.error⟩ : QueryState Nat String)).error
      = none ∧
    (aqStart (⟨some 1, some "boom", Status.error⟩ : QueryState Nat String)).status
      = Status.loading ∧
    (⟨some 1, some "boom", Status.error⟩ : QueryState Nat String).error ≠
      (aqStart (⟨some 1, some "boom", Status.error⟩ : QueryState Nat String)).error := by
  refine ⟨rfl, rfl, by simp [aqStart]⟩

/-- C4 amended: starting a refetch never eagerly clears `data` in either
hook, and `useFetch` eagerly clears nothing at all; but `useAsyncQuery`
eagerly clears `error` the moment a refetch starts. On completion only the
field matching the outcome is overwritten: a resolution leaves `error` as it
stood during the request, and a rejection leaves `data` as it stood. -/
theorem C4_amended {T E : Type} (s : FetchState T E) (q : QueryState T E)
    (v : T) (e : E) :
    (ufStart s).data = s.data ∧ (ufStart s).error = s.error ∧
    (aqStart q).data = q.data ∧ (aqStart q).error = none ∧
    (ufComplete (ufStart s) (Except.ok v)).error = s.error ∧
    (ufComplete (ufStart s) (Except.error e)).data = s.data ∧
    (aqComplete (aqStart q) (Except.ok v)).error = none ∧
    (aqComplete (aqStart q) (Except.error e)).data = q.data := by
  exact ⟨rfl, rfl, rfl, rfl, rfl, rfl, rfl, rfl⟩

/-- C5: with no ambient provider client and no per-call configuration, both
hook families throw their configuration error synchronously during render —
the fetcher, hence any client operation, is invoked zero times (third
component of `mountUseFetch`, second of `mountCmsHook`). -/
theorem C5_missing_provider_throws_before_fetch {T E : Type}
    (outcome : Except E T) (enabled : Bool) :
    mountUseFetch (T := T) (E := E) none none outcome =
      (⟨some (none, none), 0⟩,
       Except.error "Provide client options or wrap your app with <SleekCMSProvider>",
       0) ∧
    mountCmsHook (T := T) (E := E) none enabled outcome =
      (Except.error
        "[useSleekCms] Missing SleekCMSProvider. Wrap your app with <SleekCMSProvider>.",
       0) := by
  exact ⟨rfl, rfl⟩

/-- C6 counterexample: the claim "`loading` is true exactly while a refetch
is outstanding — including when refetches overlap" fails on `useFetch`: in
the well-formed trace where refetch 0 starts, refetch 1 starts, and then
refetch 0 resolves with `7`, the `finally setLoading(false)` of refetch 0
clears `loading` although refetch 1 is still outstanding (outstanding-id
list `[1]` is nonempty while `loading = false`). -/
theorem C6_counterexample :
    ufRunFromInit
        ([FetchEvt.start 0, FetchEvt.start 1,
          FetchEvt.complete 0 (Except.ok 7)] : List (FetchEvt Nat String)) =
      some (⟨some 7, none, false⟩, [1], [1, 0]) ∧
    (⟨some 7, none, false⟩ : FetchState Nat String).loading = false ∧
    ([1] : List Nat) ≠ [] := by
  refine ⟨by decide, rfl, by decide⟩

/-- C6 amended: for both hooks, as long as refetches do not overlap (a
refetch starts only when none is outstanding — the `ufSeqRun`/`aqSeqRun`
discipline), the loading indication is true exactly while a refetch is
outstanding: it turns true at every start and false at every completion.
When refetches overlap this fails: the first completion clears the loading
indication even while another refetch is still in flight. -/
theorem C6_amended {T E : Type} :
    (∀ (tr : List (FetchEvt T E)) (c : FetchState T E × List Nat),
        ufSeqRunFromInit tr = some c → (c.1.loading = true ↔ c.2 ≠ [])) ∧
    (∀ (tr : List (FetchEvt T E)) (c : QueryState T E × List Nat),
        aqSeqRunFromInit tr = some c → (aqIsLoading c.1 = true ↔ c.2 ≠ [])) := by
  constructor
  · intro tr c h
    exact ufSeqRun_inv tr _ c (by simp [fetchInit]) h
  · intro tr c h
    exact aqSeqRun_inv tr _ c (by simp [queryInit, aqIsLoading]) h

/-- C6 witness: the sequential invariant applied to the one-event trace
`[start 0]` for both hooks. -/
theorem C6_amended_witness :
    ((⟨none, none, true⟩ : FetchState Nat String).loading = true ↔
        ([0] : List Nat) ≠ []) ∧
    (aqIsLoading (⟨none, none, Status.loading⟩ : QueryState Nat String) = true ↔
        ([0] : List Nat) ≠ []) :=
  ⟨C6_amended.1 [FetchEvt.start 0] (⟨none, none, true⟩, [0]) (by decide),
   C6_amended.2 [FetchEvt.start 0] (⟨none, none, Status.loading⟩, [0]) (by decide)⟩

/-- C7: `useAsyncQuery`'s status follows `idle → loading → {success, error}`:
from any state, `refetch()` (enabled) first sets `loading` (the refetch is
start-then-complete), and the completed status is `success` exactly when the
operation resolved and `error` exactly when it rejected — in particular a
manual `refetch()` from the initial idle state behaves this way. -/
theorem C7_status_state_machine {T E : Type} (s : QueryState T E)
    (o : Except E T) :
    (aqStart s).status = Status.loading ∧
    aqRefetch true s o = aqComplete (aqStart s) o ∧
    ((aqRefetch true s o).status = Status.success ↔ ∃ v, o = Except.ok v) ∧
    ((aqRefetch true s o).status = Status.error ↔ ∃ e, o = Except.error e) ∧
    (queryInit : QueryState T E).status = Status.idle := by
  refine ⟨rfl, by simp [aqRefetch], ?_, ?_, rfl⟩ <;>
    cases o <;> simp [aqRefetch, aqStart, aqComplete]

/-- C8 counterexample: the claim "the Provider constructs exactly one client
handle for its subtree's lifetime (the same handle is published on every
re-render)" fails on the memo-based provider: within one lifetime (same memo
cell, same state), a re-render whose `env` prop changed from `"a"` to `"b"`
recomputes the `value` memo, so `createClient` runs a second time and the
published handle differs from the first one. -/
theorem C8_counterexample :
    let p1 : ProviderProps := ⟨none, some "tok", some "a", false, false, false⟩
    let p2 : ProviderProps := ⟨none, some "tok", some "b", false, false, false⟩
    let r1 := renderProviderV2 {} p1 (providerInitState p1)
    let r2 := renderProviderV2 r1.1 p2 (providerInitState p1)
    r1.2 = Except.ok (Rendered.children (some (SleekClient.async 0))) ∧
    r2.2 = Except.ok (Rendered.children (some (SleekClient.async 1))) ∧
    r2.1.ctorCount = 2 ∧ r1.2 ≠ r2.2 := by decide

/-- C8 amended: the `useState`-based provider constructs its client once at
mount and every re-render publishes that same handle with no construction;
the memo-based provider republishes the cached handle (no construction) only
while its memo dependencies are unchanged, and reconstructs whenever they
change. In sync-prefetch mode it renders nothing until the prefetch
resolves, and then renders its children with the prefetched sync client,
never calling `createClient`. -/
theorem C8_amended (c : AsyncClient) (m : ProviderMemo) (p : ProviderProps)
    (st : ProviderState) (v : Except String (Option SleekClient)) (t : String)
    (n : Nat) :
    let p0 : ProviderProps := ⟨none, some t, none, false, false, true⟩
    let r1 := renderProviderV2 {} p0 (providerInitState p0)
    let r2 := renderProviderV2 r1.1 p0 (syncResolve n)
    renderProviderV1 c = (c, 0) ∧
    (m.cached = some (valueDeps p st, v) → (renderProviderV2 m p st).1 = m) ∧
    r1.2 = Except.ok Rendered.nothing ∧
    r1.1.ctorCount = 0 ∧
    r2.2 = Except.ok (Rendered.children (some (SleekClient.sync n))) ∧
    r2.1.ctorCount = 0 := by
  refine ⟨rfl, ?_, ?_, ?_, ?_, ?_⟩
  · intro h
    rw [renderProviderV2_fst, memoValue_hit m p st v h]
  · rfl
  · rfl
  · rfl
  · rfl

/-- C8 witness: the unchanged-dependency conjunct applied to a concrete memo
cell holding the dependency array of the current props and state. -/
theorem C8_amended_witness :
    (renderProviderV2
        ⟨some (valueDeps ⟨none, some "tok", none, false, false, false⟩ ⟨none, false⟩,
               Except.ok (some (SleekClient.async 0))), 1⟩
        ⟨none, some "tok", none, false, false, false⟩ ⟨none, false⟩).1 =
      ⟨some (valueDeps ⟨none, some "tok", none, false, false, false⟩ ⟨none, false⟩,
             Except.ok (some (SleekClient.async 0))), 1⟩ :=
  (C8_amended ⟨0, ⟨0, "tok", none, false, none, none, none⟩⟩
      ⟨some (valueDeps ⟨none, some "tok", none, false, false, false⟩ ⟨none, false⟩,
             Except.ok (some (SleekClient.async 0))), 1⟩
      ⟨none, some "tok", none, false, false, false⟩ ⟨none, false⟩
      (Except.ok (some (SleekClient.async 0))) "tok" 0).2.1 rfl

/-- C9: the promise returned by `refetch` settles by resolving for every
fetcher outcome in both hooks — the propagated-exception component is always
absent, the resulting state is the ordinary refetch state, and a rejected
operation is captured in the `error` field instead of rejecting the caller's
promise. -/
theorem C9_refetch_promise_never_rejects {T E : Type} (s : FetchState T E)
    (q : QueryState T E) (o : Except E T) (enabled : Bool) (e : E) :
    (ufRefetchPromise s o).2 = none ∧
    (ufRefetchPromise s o).1 = ufRefetch s o ∧
    (aqRefetchTracked enabled q o).2.2 = none ∧
    (aqRefetchTracked enabled q o).1 = aqRefetch enabled q o ∧
    (ufRefetch s (Except.error e)).error = some e ∧
    (aqRefetch true q (Except.error e)).error = some e := by
  refine ⟨?_, ?_, ?_, ?_, rfl, ?_⟩ <;>
    cases o <;> cases enabled <;>
      simp [ufRefetchPromise, ufRefetch, ufStart, ufComplete,
        aqRefetchTracked, aqRefetch, aqStart, aqComplete]

/-- C10: with `enabled = false`, no client operation is ever invoked and the
hook's state is untouched: the mount effect is skipped (the hook stays in
the initial state with zero fetcher calls), a manual `refetch()` returns
leaving `data`, `error` and `status` unchanged without calling the fetcher,
and the initial status is idle. -/
theorem C10_disabled_skips_fetch {T E : Type} (s : QueryState T E)
    (o : Except E T) (c : SleekClient) :
    aqRefetchTracked false s o = (s, false, none) ∧
    mountCmsHook (some c) false o = (Except.ok (queryInit : QueryState T E), 0) ∧
    (queryInit : QueryState T E).status = Status.idle := by
  exact ⟨rfl, rfl, rfl⟩

/-- C2 witness: the reuse conjunct at no options, and the
construction-on-reference-change conjunct at two concrete option objects
differing only in the cache adapter (hence in reference). -/
theorem C2_amended_witness :
    useClient (useClient {} none none).1 none none = useClient {} none none ∧
    (useClient (useClient {} none
        (some ⟨0, "tok", none, false, none, none, none⟩)).1 none
        (some ⟨1, "tok", none, false, none, some 7, none⟩)).1.ctorCount =
      (useClient {} none
        (some ⟨0, "tok", none, false, none, none, none⟩)).1.ctorCount + 1 :=
  ⟨(C2_amended {} none none ⟨0, "tok", none, false, none, none, none⟩
      ⟨1, "tok", none, false, none, some 7, none⟩).1,
   (C2_amended {} none none ⟨0, "tok", none, false, none, none, none⟩
      ⟨1, "tok", none, false, none, some 7, none⟩).2 (by decide)⟩

end SleekReact
